import Mathlib

/-
  Verification development for the Power Logger application (src/app.py).

  The program is a single-file Streamlit script over a pandas DataFrame with
  two columns, "Date Time" and "Power".  Each user interaction triggers one
  full top-to-bottom run of the script.  This file embeds the script's data
  model and its operations as executable Lean definitions and proves the
  spec's claims about them.

  Modelling conventions:
  - A DataFrame cell is a Python value living in an object-dtype column:
    an int, a float (modelled exactly as a rational, since every Python
    float is a rational), or a string.
  - Exceptions are modelled with Except Unit: a .error () value means the
    corresponding Python expression raises.
  - Wall-clock time is an input to each script run (the datetime.now()
    string), so runs are deterministic functions of (state, inputs).
-/

namespace App

/-- A cell of the object-dtype DataFrame: a Python int, float (exact, as a
rational), or string as introduced by the editable table widget. -/
inductive Cell where
  | int (n : Int)
  | num (q : Rat)
  | str (s : String)
deriving DecidableEq

/-- One row of the table: the "Date Time" cell and the "Power" cell.
Both can hold arbitrary cell values after edits. -/
structure Row where
  dateTime : Cell
  power : Cell
deriving DecidableEq

/-- The pandas DataFrame held in st.session_state.df: an ordered column-name
list plus the ordered rows. -/
structure DataFrame where
  columns : List String
  rows : List Row
deriving DecidableEq

/-- The initial and cleared state: pd.DataFrame(columns=["Date Time", "Power"]),
app.py lines 15 and 99. -/
def empty_df : DataFrame := ⟨["Date Time", "Power"], []⟩

/-- Truncation of a rational toward zero; this is Python's int(float). -/
def ratTrunc (q : Rat) : Int :=
  if 0 ≤ q.num then Int.ofNat (q.num.toNat / q.den)
  else - Int.ofNat ((- q.num).toNat / q.den)

/-- Floor of a rational, used by the round-half-to-even model of Python's
round(x, 2). -/
def ratFloor (q : Rat) : Int :=
  if 0 ≤ q.num then Int.ofNat (q.num.toNat / q.den)
  else - Int.ofNat (((- q.num).toNat + q.den - 1) / q.den)

/-- Python's round at two decimal places (banker's rounding on the exact
rational value; float representation noise is abstracted away). -/
def pyRound2 (x : Rat) : Rat :=
  let m : Rat := x * 100
  let f : Int := ratFloor m
  let r : Rat := m - (f : Rat)
  let n : Int :=
    if r < 1/2 then f
    else if 1/2 < r then f + 1
    else if f % 2 = 0 then f else f + 1
  (n : Rat) / 100

/-- Value of a run of decimal digit characters; none when empty or when a
non-digit appears. -/
def digitsVal (cs : List Char) : Option Nat :=
  if cs = [] then none
  else if cs.all Char.isDigit then
    some (cs.foldl (fun a c => a * 10 + (c.toNat - 48)) 0)
  else none

/-- Strip leading and trailing whitespace from a character list (the
str.strip step Python's int() performs on string arguments). -/
def stripWs (cs : List Char) : List Char :=
  ((cs.dropWhile Char.isWhitespace).reverse.dropWhile Char.isWhitespace).reverse

/-- Python's int(str): surrounding whitespace is allowed, then an optional
sign and a nonempty digit run; anything else raises ValueError. -/
def pyIntOfString (s : String) : Except Unit Int :=
  match stripWs s.toList with
  | '-' :: rest =>
    match digitsVal rest with
    | some n => Except.ok (- (n : Int))
    | none => Except.error ()
  | '+' :: rest =>
    match digitsVal rest with
    | some n => Except.ok (n : Int)
    | none => Except.error ()
  | cs =>
    match digitsVal cs with
    | some n => Except.ok (n : Int)
    | none => Except.error ()

/-- Python's int(cell) as applied at app.py line 39: ints pass through,
floats truncate toward zero, strings parse as integer literals or raise. -/
def pyInt : Cell → Except Unit Int
  | Cell.int n => Except.ok n
  | Cell.num q => Except.ok (ratTrunc q)
  | Cell.str s => pyIntOfString s

/-- Two decimal digit characters as a number. -/
def twoDigits (a b : Char) : Nat := (a.toNat - 48) * 10 + (b.toNat - 48)

/-- Parse a timestamp in the app's own format "%Y-%m-%d %H:%M:%S"
(app.py line 85) into an order-preserving numeric key.  This models
pd.to_datetime restricted to the format the app itself writes; strings in
other shapes are treated as unparseable. -/
def parseTimestamp (s : String) : Option Nat :=
  match s.toList with
  | [y1, y2, y3, y4, c1, o1, o2, c2, a1, a2, c3, h1, h2, c4, i1, i2, c5, e1, e2] =>
    if c1 = '-' ∧ c2 = '-' ∧ c3 = ' ' ∧ c4 = ':' ∧ c5 = ':' ∧
        ([y1, y2, y3, y4, o1, o2, a1, a2, h1, h2, i1, i2, e1, e2].all Char.isDigit) = true then
      let y := twoDigits y1 y2 * 100 + twoDigits y3 y4
      let mo := twoDigits o1 o2
      let da := twoDigits a1 a2
      let hh := twoDigits h1 h2
      let mi := twoDigits i1 i2
      let ss := twoDigits e1 e2
      if 1 ≤ mo ∧ mo ≤ 12 ∧ 1 ≤ da ∧ da ≤ 31 ∧ hh ≤ 23 ∧ mi ≤ 59 ∧ ss ≤ 59 then
        some (((((y * 13 + mo) * 32 + da) * 24 + hh) * 60 + mi) * 60 + ss)
      else none
    else none
  | _ => none

/-- pd.to_datetime applied to one cell: only strings in the app's timestamp
format parse; any other cell makes the column conversion raise. -/
def to_datetime_cell : Cell → Except Unit Nat
  | Cell.str s =>
    match parseTimestamp s with
    | some k => Except.ok k
    | none => Except.error ()
  | _ => Except.error ()

/-- pd.to_datetime over the whole "Date Time" column with the default
errors="raise": the conversion succeeds only when every cell parses, and
raises as soon as any cell fails. -/
def to_datetime_series (cs : List Cell) : Except Unit (List Nat) :=
  cs.mapM to_datetime_cell

/-- Numeric value of a cell for pandas Series.mean over an object column:
summing an int or float works, adding a string raises TypeError. -/
def cellNum : Cell → Except Unit Rat
  | Cell.int n => Except.ok (n : Rat)
  | Cell.num q => Except.ok q
  | Cell.str _ => Except.error ()

/-- pandas Series.mean on the "Power" column: sum of the values divided by
the count; raises if any cell is non-numeric text. -/
def seriesMean (cs : List Cell) : Except Unit Rat := do
  let vs ← cs.mapM cellNum
  pure ((vs.foldl (fun a b => a + b) 0) / (vs.length : Rat))

/-- Latest Power metric, app.py line 39:
latest_power = int(df["Power"].iloc[-1]) if not df.empty else "—".
Result none is the "—" sentinel; .error () is an uncaught exception. -/
def latest_power (d : DataFrame) : Except Unit (Option Int) :=
  match d.rows.getLast? with
  | none => Except.ok none
  | some r => Except.map some (pyInt r.power)

/-- Average Power metric, app.py line 43:
avg_power = round(df["Power"].mean(), 2) if not df.empty else "—". -/
def avg_power (d : DataFrame) : Except Unit (Option Rat) :=
  if d.rows = [] then Except.ok none
  else Except.map (fun m => some (pyRound2 m)) (seriesMean (d.rows.map (fun r => r.power)))

/-- Result of the Start time metric block, app.py lines 46-52.  When the
table is empty the code renders nothing at all (there is no else branch on
the emptiness test), hence the notShown case. -/
inductive StartTime where
  | notShown
  | timeVal (k : Nat)
  | invalidDate
deriving DecidableEq

/-- The try/except body of the Start time metric applied to the converted
column: the minimum parsed timestamp, or the "Invalid Date" sentinel when
pd.to_datetime raised. -/
def startOfSeries : Except Unit (List Nat) → StartTime
  | Except.error _ => StartTime.invalidDate
  | Except.ok ks =>
    match ks.min? with
    | some m => StartTime.timeVal m
    | none => StartTime.invalidDate

/-- Start time metric, app.py lines 46-52: rendered only when the table is
nonempty; inside a try/except that shows "Invalid Date" on parse failure. -/
def start_time (d : DataFrame) : StartTime :=
  if d.rows = [] then StartTime.notShown
  else startOfSeries (to_datetime_series (d.rows.map (fun r => r.dateTime)))

/-- The four scalar summaries of the top metrics block. -/
structure MetricsOut where
  total_rows : Nat
  latest : Option Int
  avg : Option Rat
  start : StartTime
deriving DecidableEq

/-- The whole top metrics block, app.py lines 30-52, in source order:
Total rows never raises; Latest Power and Average Power have no exception
handler, so a raise aborts the script run; Start time has its own
try/except and is total. -/
def metrics_block (d : DataFrame) : Except Unit MetricsOut := do
  let lp ← latest_power d
  let ap ← avg_power d
  pure ⟨d.rows.length, lp, ap, start_time d⟩

/-- Chart type selector, app.py line 131. -/
inductive ChartType where
  | line
  | scatter
  | bar
deriving DecidableEq

/-- An x-axis value in the plotting frame df_plot: the "Date Time" column
after the conversion attempt is either a parsed datetime key or the
original cell left as opaque text. -/
inductive PlotX where
  | t (k : Nat)
  | raw (c : Cell)
deriving DecidableEq

/-- Stable insertion into a list sorted by le. -/
def insertSorted {A : Type} (le : A → A → Bool) (x : A) : List A → List A
  | [] => [x]
  | y :: ys => if le x y then x :: y :: ys else y :: insertSorted le x ys

/-- Sort by le (insertion sort).  NOTE: the script delegates sorting to
DataFrame.sort_values with its default kind="quicksort", which pandas
documents as NOT stable; no theorem in this file relies on the tie order
produced here. -/
def sortByLe {A : Type} (le : A → A → Bool) (l : List A) : List A :=
  l.foldr (insertSorted le) []

/-- Comparison used by sort_values on the "Date Time" column of df_plot:
parsed datetimes compare numerically, raw text compares lexicographically. -/
def plotLe : PlotX × Cell → PlotX × Cell → Bool
  | (PlotX.t k1, _), (PlotX.t k2, _) => decide (k1 ≤ k2)
  | (PlotX.raw (Cell.str s1), _), (PlotX.raw (Cell.str s2), _) => decide (s1 ≤ s2)
  | _, _ => false

/-- df_plot.sort_values("Date Time") inside try/except (app.py lines
138-142): when the column's values are mutually comparable the rows are
sorted by them; a comparison failure raises and the except: pass branch
leaves the order unchanged. -/
def trySortPoints (pts : List (PlotX × Cell)) : List (PlotX × Cell) :=
  if pts.all (fun p => match p.1 with | PlotX.t _ => true | _ => false) then
    sortByLe plotLe pts
  else if pts.all (fun p => match p.1 with | PlotX.raw (Cell.str _) => true | _ => false) then
    sortByLe plotLe pts
  else pts

/-- Result of the Visualization tab, app.py lines 114-174. -/
inductive ChartResult where
  | noDataInfo
  | chart (parseWarn : Bool) (ct : ChartType) (markers : Bool) (pts : List (PlotX × Cell))
  | chartError (parseWarn : Bool)
deriving DecidableEq

/-- The Visualization tab as a pure function of a snapshot of the Table
Store (df_plot = st.session_state.df.copy(), app.py line 117).  The
datetime conversion attempt, the optional sort, and the guarded chart
construction never touch the store.  The construction-failure condition
(a non-numeric text value in the "Power" column) is modelled from the
spec's scenario list, since plotly's internals are outside the source. -/
def chart_view (d : DataFrame) (ct : ChartType) (markers sortT : Bool) : ChartResult :=
  if d.rows = [] then ChartResult.noDataInfo
  else
    let powers := d.rows.map (fun r => r.power)
    let prs := to_datetime_series (d.rows.map (fun r => r.dateTime))
    let warn := match prs with | Except.ok _ => false | Except.error _ => true
    let xs : List PlotX := match prs with
      | Except.ok ks => ks.map PlotX.t
      | Except.error _ => d.rows.map (fun (r : Row) => PlotX.raw r.dateTime)
    let pts0 := xs.zip powers
    let pts := if sortT then trySortPoints pts0 else pts0
    if powers.any (fun c => match c with | Cell.str _ => true | _ => false) then
      ChartResult.chartError warn
    else
      ChartResult.chart warn ct markers pts

/-- One field of a CSV line needs quoting when it contains a delimiter,
a quote, or a line break (csv.QUOTE_MINIMAL, the pandas default). -/
def needsQuote (s : String) : Bool :=
  s.toList.any (fun c => c = ',' || c = '\"' || c = '\n' || c = '\r')

/-- Double every quote character, the CSV escaping rule. -/
def escapeQuotes : List Char → List Char
  | [] => []
  | c :: cs => if c = '\"' then '\"' :: '\"' :: escapeQuotes cs else c :: escapeQuotes cs

/-- A CSV field: the text itself, quoted and escaped only when needed. -/
def csvField (s : String) : String :=
  if needsQuote s then String.mk ('\"' :: (escapeQuotes s.toList ++ ['\"'])) else s

/-- The text pandas writes for a cell: ints in decimal, strings verbatim.
The shortest-roundtrip decimal repr of floats is abstracted by the Rat
repr; no claim exercises CSV output of float cells. -/
def cellStr : Cell → String
  | Cell.int n => toString n
  | Cell.num q => toString q
  | Cell.str s => s

/-- One CSV data line: the two cells of the row, quoted as needed,
joined by a comma.  No index column (to_csv(index=False)). -/
def rowCsv (r : Row) : String :=
  csvField (cellStr r.dateTime) ++ "," ++ csvField (cellStr r.power)

/-- The header line: column names joined by commas. -/
def headerCsv : List String → String
  | [] => ""
  | [c] => csvField c
  | c :: cs => csvField c ++ "," ++ headerCsv cs

/-- The data lines, one per row in table order, each ending in a newline. -/
def rowsCsv : List Row → String
  | [] => ""
  | r :: rs => rowCsv r ++ "\n" ++ rowsCsv rs

/-- st.session_state.df.to_csv(index=False), app.py line 188: the header
line then one line per row in current order.  The .encode("utf-8") step is
the UTF-8 byte encoding of this text. -/
def to_csv (d : DataFrame) : String :=
  headerCsv d.columns ++ "\n" ++ rowsCsv d.rows

/-- Result of the Export tab, app.py lines 177-198. -/
inductive ExportResult where
  | emptyInfo
  | download (name : String) (csvText : String)
deriving DecidableEq

/-- The Export tab: suppressed with an informational message on an empty
table, otherwise a download of the serialized CSV under the chosen name. -/
def export_view (d : DataFrame) (name : String) : ExportResult :=
  if d.rows = [] then ExportResult.emptyInfo
  else ExportResult.download name (to_csv d)

/-- The inputs of one script run: the wall clock, the widget states, and
the content of the editable table.  The edit field is the user's editing
action as a function of the table the data_editor displays; the identity
function is an untouched editor. -/
structure Inputs where
  now : String
  power_value : Int
  add_clicked : Bool
  clear_clicked : Bool
  edit : DataFrame → DataFrame
  chart_type : ChartType
  show_markers : Bool
  sort_by_time : Bool
  file_name : String

/-- The add_clicked handler, app.py lines 84-96: append one row with the
formatted current time and the integer power to the end of the table. -/
def add_row (d : DataFrame) (now : String) (p : Int) : DataFrame :=
  ⟨d.columns, d.rows ++ [⟨Cell.str now, Cell.int p⟩]⟩

/-- The Input and Table tab, app.py lines 62-111, in source order: the add
handler, then the clear handler, then the data_editor whose result is
written back to st.session_state.df. -/
def run_input_tab (d : DataFrame) (i : Inputs) : DataFrame :=
  let d1 := if i.add_clicked then add_row d i.now i.power_value else d
  let d2 := if i.clear_clicked then empty_df else d1
  i.edit d2

/-- Everything one script run renders. -/
structure Outputs where
  metrics : MetricsOut
  chart : ChartResult
  exportOut : ExportResult

/-- One full top-to-bottom run of app.py as a function of the current
Table Store state and the run's inputs: the metrics block runs first from
the prior state (an uncaught exception there aborts the run before any
handler executes, leaving the store untouched); then the input tab updates
the store; the chart and export tabs derive their views from the updated
store without writing to it. -/
def run_script (d : DataFrame) (i : Inputs) : DataFrame × Except Unit Outputs :=
  match metrics_block d with
  | Except.error e => (d, Except.error e)
  | Except.ok m =>
    let d1 := run_input_tab d i
    (d1, Except.ok ⟨m, chart_view d1 i.chart_type i.show_markers i.sort_by_time,
                    export_view d1 i.file_name⟩)

/-- Concatenation of a list of strings, used to state the shape of the CSV
serialization. -/
def concatStr (l : List String) : String := l.foldr (fun a b => a ++ b) ""

/-- A table whose single row has a non-numeric text value in the "Power"
column, as produced by editing that cell in the table widget. -/
def dfBadPower : DataFrame :=
  ⟨["Date Time", "Power"], [⟨Cell.str "2024-01-01 10:00:00", Cell.str "abc"⟩]⟩

/-- A run's inputs with no button click and an untouched editor: the user
is only looking at the views. -/
def viewInputsW : Inputs :=
  ⟨"2024-01-02 03:04:05", 50, false, false, fun d => d, ChartType.line, true, true,
   "power_data.csv"⟩

/-- A one-row starting table for concrete runs. -/
def dStart : DataFrame :=
  ⟨["Date Time", "Power"], [⟨Cell.str "2024-01-01 09:00:00", Cell.int 7⟩]⟩

/-- A run's inputs with the Add button clicked at power 50. -/
def addInputsW : Inputs :=
  ⟨"2024-01-02 03:04:05", 50, true, false, fun x => x, ChartType.line, true, true,
   "power_data.csv"⟩

/-- A table mixing one parseable and one unparseable timestamp. -/
def dfMixedTs : DataFrame :=
  ⟨["Date Time", "Power"],
   [⟨Cell.str "2024-01-01 10:00:00", Cell.int 5⟩, ⟨Cell.str "notadate", Cell.int 6⟩]⟩

/-- A table with two parseable timestamps entered in descending order. -/
def dfTwoTs : DataFrame :=
  ⟨["Date Time", "Power"],
   [⟨Cell.str "2024-01-01 10:00:00", Cell.int 5⟩, ⟨Cell.str "2024-01-01 09:00:00", Cell.int 6⟩]⟩

/-- The spec's own serialization example: the one-row table [(t1, 50)]. -/
def dfT1 : DataFrame := ⟨["Date Time", "Power"], [⟨Cell.str "t1", Cell.int 50⟩]⟩

/-- A one-row table used as an editor result. -/
def dfE : DataFrame := ⟨["Date Time", "Power"], [⟨Cell.str "2024-01-01 00:00:00", Cell.int 1⟩]⟩

/-- A run's inputs whose editor content is the fixed table dfE, modelling
Editor.apply(dfE). -/
def applyInputsW : Inputs :=
  ⟨"2024-01-02 03:04:05", 50, false, false, fun _ => dfE, ChartType.line, true, true,
   "power_data.csv"⟩

/-- A run's inputs with the Clear button clicked. -/
def clearInputsW : Inputs :=
  ⟨"2024-01-02 03:04:05", 50, false, true, fun x => x, ChartType.line, true, true,
   "power_data.csv"⟩

/-- The non-integer rational 45.7, a float a user can type into the Power
column of the editor. -/
def qW : Rat := ⟨457, 10, by decide, by decide⟩

/-- A table whose last row's power cell holds the float 45.7. -/
def dfNum : DataFrame :=
  ⟨["Date Time", "Power"], [⟨Cell.str "2024-01-01 10:00:00", Cell.num qW⟩]⟩

/-- Claim C1: for every table and every integer power in [-100000, 100000],
a run with the Add button clicked and an untouched editor writes back a
table whose first len(T) rows are T unchanged and whose appended last row
is the formatted current time paired with the power value; the operation
always succeeds. -/
theorem c1_add_appends_and_writes_back (d : DataFrame) (i : Inputs)
    (hp1 : -100000 ≤ i.power_value) (hp2 : i.power_value ≤ 100000)
    (ha : i.add_clicked = true) (hc : i.clear_clicked = false)
    (he : i.edit = fun x => x) :
    (run_input_tab d i).rows.take d.rows.length = d.rows ∧
    (run_input_tab d i).rows.length = d.rows.length + 1 ∧
    (run_input_tab d i).rows.getLast? = some ⟨Cell.str i.now, Cell.int i.power_value⟩ ∧
    (run_input_tab d i).columns = d.columns := by
  simp [run_input_tab, add_row, ha, hc, he, List.take_left, List.getLast?_concat]

/-- Witness for C1: adding power 50 to a concrete one-row table. -/
theorem c1_witness :
    (run_input_tab dStart addInputsW).rows.take dStart.rows.length = dStart.rows ∧
    (run_input_tab dStart addInputsW).rows.length = dStart.rows.length + 1 ∧
    (run_input_tab dStart addInputsW).rows.getLast? =
      some ⟨Cell.str addInputsW.now, Cell.int addInputsW.power_value⟩ ∧
    (run_input_tab dStart addInputsW).columns = dStart.columns :=
  c1_add_appends_and_writes_back dStart addInputsW (by decide) (by decide) rfl rfl rfl

/-- Counterexample for claim C2: on the empty table the Start time metric
is not rendered at all.  The code (app.py lines 46-52) guards the whole
metric with "if not df.empty:" and has no else branch, so no "no data"
sentinel is shown, contrary to the claim's declared empty-table policy;
notShown is by construction distinct from both rendered outcomes (a time
value or "Invalid Date"). -/
theorem c2_start_time_not_rendered_on_empty :
    start_time empty_df = StartTime.notShown := rfl

/-- Claim C2 as amended: on the empty table, Total rows is 0, Latest Power
and Average Power show the "—" sentinel without raising, and the Start
time metric is not rendered at all (no sentinel of any kind). -/
theorem c2_empty_table_metrics :
    metrics_block empty_df = Except.ok ⟨0, none, none, StartTime.notShown⟩ := rfl

/-- Claim C4 evaluated at the failing input: with a non-numeric text value
in the "Power" cell of the last row, the unguarded int() call in the
Latest Power metric raises, the whole metrics block raises, and the
script run aborts before the Ingestion, Chart and Export sections execute;
only the store being left unchanged is salvaged.  This contradicts the
claim that the metrics degrade per-metric and leave Export and Ingestion
functional. -/
theorem c4_metrics_raise_on_text_power :
    metrics_block dfBadPower = Except.error () ∧
    run_script dfBadPower viewInputsW = (dfBadPower, Except.error ()) := ⟨rfl, rfl⟩

/-- Counterexample for claim C5: on a table mixing the parseable timestamp
"2024-01-01 10:00:00" with the unparseable "notadate", the metric shows
"Invalid Date" instead of the minimum of the parseable timestamps:
pd.to_datetime raises on the whole column, so parseable rows are not
skipped.  The second conjunct records that the table does contain a
parseable timestamp, whose key the claim would require as the result. -/
theorem c5_mixed_timestamps_counterexample :
    start_time dfMixedTs = StartTime.invalidDate ∧
    parseTimestamp "2024-01-01 10:00:00" = some 72750304800 := ⟨rfl, rfl⟩

/-- Claim C5 as amended: for every non-empty table, when every row's
timestamp parses the Start time metric is the minimum parsed timestamp,
and when the column conversion raises (any row unparseable) the metric is
the "Invalid Date" sentinel. -/
theorem c5_start_time_amended (d : DataFrame) (hne : ¬ d.rows = []) :
    (∀ ks m, to_datetime_series (d.rows.map (fun r => r.dateTime)) = Except.ok ks →
        ks.min? = some m → start_time d = StartTime.timeVal m) ∧
    (to_datetime_series (d.rows.map (fun r => r.dateTime)) = Except.error () →
        start_time d = StartTime.invalidDate) := by
  constructor
  · intro ks m hok hmin
    unfold start_time
    rw [if_neg hne, hok]
    simp [startOfSeries, hmin]
  · intro herr
    unfold start_time
    rw [if_neg hne, herr]
    simp [startOfSeries]

/-- Witness for C5 (amended): on a two-row table entered in descending
time order, Start time is the earlier (second) timestamp. -/
theorem c5_witness :
    start_time dfTwoTs = StartTime.timeVal 72750301200 :=
  (c5_start_time_amended dfTwoTs (by decide)).1 [72750304800, 72750301200] 72750301200 rfl rfl

/-- Claim C6: a run in which no mutating control fires (no Add, no Clear,
untouched editor) leaves the Table Store exactly as it was, whatever the
metrics, chart and export derivations do — including the case where a
derivation raises: the chart reads a snapshot copy, its construction is
guarded, and no failure path writes back to the store. -/
theorem c6_views_leave_store_unchanged (d : DataFrame) (i : Inputs)
    (ha : i.add_clicked = false) (hc : i.clear_clicked = false)
    (he : i.edit = fun x => x) :
    (run_script d i).1 = d := by
  cases hm : metrics_block d <;> simp [run_script, hm, run_input_tab, ha, hc, he]

/-- Witness for C6: a view-only run over a table whose metrics derivation
raises still leaves the store unchanged. -/
theorem c6_witness : (run_script dfBadPower viewInputsW).1 = dfBadPower :=
  c6_views_leave_store_unchanged dfBadPower viewInputsW rfl rfl rfl

/-- Helper for C7: the recursive data-line writer equals the concatenation
of the per-row CSV lines in table order. -/
theorem rowsCsv_eq_concat (l : List Row) :
    rowsCsv l = concatStr (l.map (fun r => rowCsv r ++ "\n")) := by
  induction l with
  | nil => rfl
  | cons r rs ih => simp [rowsCsv, concatStr, ih, String.append_assoc]

/-- Claim C7: for every non-empty table with the app's two columns, the
serialized CSV text is exactly the verbatim header line followed by one
CSV line per row in current order (no index column, cells transformed
only by CSV quoting), the Export view downloads exactly that text, and on
the spec's example table [(t1, 50)] the text is
"Date Time,Power\nt1,50\n". -/
theorem c7_to_csv_format (d : DataFrame) (hne : d.rows ≠ [])
    (hcols : d.columns = ["Date Time", "Power"]) :
    to_csv d = "Date Time,Power\n" ++ concatStr (d.rows.map (fun r => rowCsv r ++ "\n")) ∧
    export_view d "out.csv" = ExportResult.download "out.csv" (to_csv d) ∧
    to_csv dfT1 = "Date Time,Power\nt1,50\n" := by
  refine ⟨?_, ?_, rfl⟩
  · unfold to_csv
    rw [hcols, rowsCsv_eq_concat]
    rfl
  · unfold export_view
    rw [if_neg hne]

/-- Witness for C7: the serialization facts at the spec's example table. -/
theorem c7_witness :
    to_csv dfT1 = "Date Time,Power\n" ++ concatStr (dfT1.rows.map (fun r => rowCsv r ++ "\n")) ∧
    export_view dfT1 "out.csv" = ExportResult.download "out.csv" (to_csv dfT1) ∧
    to_csv dfT1 = "Date Time,Power\nt1,50\n" :=
  c7_to_csv_format dfT1 (by decide) rfl

/-- Claim C8: applying an edited table is idempotent — a second run whose
editor content is the same table e leaves the Table Store in the same
state as the first such run, from any starting state. -/
theorem c8_apply_idempotent (d e : DataFrame) (i : Inputs)
    (he : i.edit = fun _ => e) :
    (run_script (run_script d i).1 i).1 = (run_script d i).1 := by
  have key : ∀ s : DataFrame, run_input_tab s i = e := by
    intro s; simp [run_input_tab, he]
  have run1 : ∀ s : DataFrame, (run_script s i).1 = s ∨ (run_script s i).1 = e := by
    intro s
    cases hm : metrics_block s
    · left; simp [run_script, hm]
    · right; simp [run_script, hm, key]
  rcases run1 d with h | h
  · rw [h]; exact h
  · rw [h]; rcases run1 e with h2 | h2 <;> exact h2

/-- Witness for C8: applying the concrete edited table dfE twice starting
from the empty store. -/
theorem c8_witness :
    (run_script (run_script empty_df applyInputsW).1 applyInputsW).1 =
      (run_script empty_df applyInputsW).1 :=
  c8_apply_idempotent empty_df dfE applyInputsW rfl

/-- Claim C9: from every prior state, a run with the Clear button clicked
and an untouched editor replaces the Table Store with a zero-row table
carrying the same fixed two-column schema, timestamp column first; the
operation always succeeds. -/
theorem c9_clear_resets (d : DataFrame) (i : Inputs)
    (hc : i.clear_clicked = true) (he : i.edit = fun x => x) :
    (run_input_tab d i).rows = [] ∧
    (run_input_tab d i).columns = ["Date Time", "Power"] := by
  simp [run_input_tab, hc, he, empty_df]

/-- Witness for C9: clearing a concrete one-row table. -/
theorem c9_witness :
    (run_input_tab dStart clearInputsW).rows = [] ∧
    (run_input_tab dStart clearInputsW).columns = ["Date Time", "Power"] :=
  c9_clear_resets dStart clearInputsW rfl rfl

/-- Claim C10: when the last row's power cell holds a numeric non-integer
value q, the Latest Power metric displays int(q) — q truncated toward
zero (ratTrunc) — which differs from the stored cell value. -/
theorem c10_latest_power_truncates (d : DataFrame) (r : Row) (q : Rat)
    (hlast : d.rows.getLast? = some r) (hq : r.power = Cell.num q)
    (hden : q.den ≠ 1) :
    latest_power d = Except.ok (some (ratTrunc q)) ∧
    ((ratTrunc q : Rat) ≠ q) := by
  constructor
  · unfold latest_power
    rw [hlast]
    simp [pyInt, hq, Except.map]
  · intro hcast
    apply hden
    have h1 : ((ratTrunc q : Int) : Rat).den = 1 := Rat.den_intCast _
    rw [hcast] at h1
    exact h1

/-- Witness for C10: with 45.7 in the last row's power cell the metric
shows 45, not the stored 45.7. -/
theorem c10_witness :
    latest_power dfNum = Except.ok (some (ratTrunc qW)) ∧ ((ratTrunc qW : Rat) ≠ qW) :=
  c10_latest_power_truncates dfNum ⟨Cell.str "2024-01-01 10:00:00", Cell.num qW⟩ qW rfl rfl
    (by decide)

end App
